import Mathlib

/-!
Shallow embedding of the pypowerwall repository slice:
`pypowerwall/__init__.py` (the `Powerwall` facade) and `proxy/server.py`
(the HTTP gateway's `do_GET` dispatch).

Python dictionaries are modelled as association lists, Python `None` as
`Option.none`, Python numbers as `ℚ` (exact arithmetic; the source uses
floats, whose rounding is irrelevant to the stated properties), and a
Python exception escaping a function as an `Except.error` / `crash` value.
-/

namespace PyPW

/-- Association-list lookup, modelling Python's `d[k]` / `k in d`. -/
def alookup {α : Type} (l : List (String × α)) (k : String) : Option α :=
  match l.find? (fun kv => kv.1 = k) with
  | some kv => some kv.2
  | none => none

/-! ## Powerwall facade: battery level scaling (`Powerwall.level`, `Powerwall.get_reserve`) -/

/-- From `Powerwall.level`: the Tesla-app scaling `(level / 0.95) - (5 / 0.95)`. -/
def appScale (r : ℚ) : ℚ := r / (0.95 : ℚ) - (5 : ℚ) / (0.95 : ℚ)

/-- Embeds `Powerwall.level(scale)`: polls `/api/system_status/soe` (the payload is
passed in), returns `payload['percentage']`, scaled when `scale` is true, and
`None` when the payload is `None` or lacks the key. -/
def Powerwall.level (payload : Option (List (String × ℚ))) (scale : Bool) : Option ℚ :=
  match payload with
  | none => none
  | some p =>
    match alookup p "percentage" with
    | none => none
    | some r => some (if scale then appScale r else r)

/-- Embeds `Powerwall.get_reserve(scale)`: polls `/api/operation` (payload passed
in), returns `payload['backup_reserve_percent']`, scaled when `scale` is true. -/
def Powerwall.get_reserve (payload : Option (List (String × ℚ))) (scale : Bool) : Option ℚ :=
  match payload with
  | none => none
  | some p =>
    match alookup p "backup_reserve_percent" with
    | none => none
    | some r => some (if scale then appScale r else r)

/-! ## Powerwall facade: grid status (`Powerwall.grid_status`) -/

/-- A Python value returned by `grid_status`: a string or an int. -/
inductive GSVal where
  | s (v : String)
  | n (v : Int)
deriving Repr, DecidableEq

/-- The fixed `gridmap` dictionary of `Powerwall.grid_status`, mapping a raw
state string to its `string` and `numeric` renderings. -/
def gridmap (k : String) : Option (String × Int) :=
  alookup
    [("SystemGridConnected", ("UP", 1)),
     ("SystemIslandedActive", ("DOWN", 0)),
     ("SystemTransitionToGrid", ("SYNCING", -1)),
     ("SystemTransitionToIsland", ("SYNCING", -1)),
     ("SystemIslandedReady", ("SYNCING", -1)),
     ("SystemMicroGridFaulted", ("DOWN", 0)),
     ("SystemWaitForUser", ("DOWN", 0))] k

/-- Rendering stand-in for `json.dumps(payload, indent=4, sort_keys=True)` in the
`type == "json"` branch (its exact text is not inspected by any property). -/
def jsonDumpsPayload (payload : Option (List (String × String))) : String :=
  match payload with
  | none => "null"
  | some l =>
    "\x7b" ++ String.intercalate ", " (l.map (fun kv => "\x22" ++ kv.1 ++ "\x22: \x22" ++ kv.2 ++ "\x22")) ++ "\x7d"

/-- Embeds `Powerwall.grid_status(type)`. The payload of
`/api/system_status/grid_status` is passed in. `Except.error` models a Python
exception escaping: `ValueError` for a bad `type`, `TypeError` when the payload
is `None` (`payload['grid_status']` on `None`), `KeyError` when the key is
missing. An unrecognized state maps through `gridmap.get(...,{}).get(type)` to
`None` (`Except.ok none`), merely logged. -/
def Powerwall.grid_status (payload : Option (List (String × String))) (ty : String) :
    Except String (Option GSVal) :=
  if ¬ (ty = "json" ∨ ty = "string" ∨ ty = "numeric") then
    .error ("ValueError: Invalid value for parameter type: " ++ ty)
  else if ty = "json" then
    .ok (some (.s (jsonDumpsPayload payload)))
  else
    match payload with
    | none => .error "TypeError: NoneType object is not subscriptable"
    | some p =>
      match alookup p "grid_status" with
      | none => .error "KeyError: grid_status"
      | some raw =>
        match gridmap raw with
        | none => .ok none
        | some sv => .ok (some (if ty = "string" then .s sv.1 else .n sv.2))

/-! ## Powerwall facade: other derived accessors -/

/-- Embeds `Powerwall.site_name`: `payload['site_name']` inside `try/except`,
so a `None` payload or a missing key yields `None` instead of an exception. -/
def Powerwall.site_name (payload : Option (List (String × String))) : Option String :=
  match payload with
  | none => none
  | some p => alookup p "site_name"

/-- Embeds `Powerwall.temps`: iterates `self.vitals() or {}`, keeping devices
whose name starts with `TETHC` and reading `.get('THC_AmbientTemp')` (which may
be absent, hence `Option ℚ` values). -/
def Powerwall.temps (vitals : Option (List (String × List (String × ℚ)))) :
    List (String × Option ℚ) :=
  (vitals.getD []).filterMap
    (fun dv => if dv.1.startsWith "TETHC" then some (dv.1, alookup dv.2 "THC_AmbientTemp") else none)

/-! ## Powerwall facade: power aliases (`site`, `load`, `grid`, `home`)

`client.fetchpower` lives in the (out-of-slice) backend client, so it is taken
as an argument; `α` covers any result shape, including result-state pairs. -/

/-- Embeds `Powerwall.site(verbose)`: `return self.client.fetchpower('site', verbose)`. -/
def Powerwall.site {α : Type} (fetchpower : String → Bool → α) (verbose : Bool) : α :=
  fetchpower "site" verbose

/-- Embeds `Powerwall.solar(verbose)`. -/
def Powerwall.solar {α : Type} (fetchpower : String → Bool → α) (verbose : Bool) : α :=
  fetchpower "solar" verbose

/-- Embeds `Powerwall.battery(verbose)`. -/
def Powerwall.battery {α : Type} (fetchpower : String → Bool → α) (verbose : Bool) : α :=
  fetchpower "battery" verbose

/-- Embeds `Powerwall.load(verbose)`: `return self.client.fetchpower('load', verbose)`. -/
def Powerwall.load {α : Type} (fetchpower : String → Bool → α) (verbose : Bool) : α :=
  fetchpower "load" verbose

/-- Embeds the alias `Powerwall.grid(verbose)`: `return self.site(verbose)`. -/
def Powerwall.grid {α : Type} (fetchpower : String → Bool → α) (verbose : Bool) : α :=
  Powerwall.site fetchpower verbose

/-- Embeds the alias `Powerwall.home(verbose)`: `return self.load(verbose)`. -/
def Powerwall.home {α : Type} (fetchpower : String → Bool → α) (verbose : Bool) : α :=
  Powerwall.load fetchpower verbose

/-! ## Powerwall facade: backend selection in `Powerwall.__init__` -/

/-- The two backend client classes. -/
inductive BackendKind where
  | cloud
  | local
deriving Repr, DecidableEq

/-- Embeds the backend decision of `Powerwall.__init__`: `if self.cloudmode or
self.host == "": cloudmode = True, client = PyPowerwallCloud(...) else:
cloudmode = False, client = PyPowerwallLocal(...)`. Returns the final
`cloudmode` flag and the chosen client kind; the facade object is immutable
afterwards (no other assignment to `self.client` / `self.cloudmode` exists in
the source). -/
def Powerwall.initBackend (cloudmode : Bool) (host : String) : Bool × BackendKind :=
  if cloudmode || host = "" then (true, .cloud) else (false, .local)

/-! ## Response cache (`poll`)

`Powerwall.poll` in this slice delegates to `self.client.poll(api, force,
recursive, raw)`; the cache logic itself lives in `PyPowerwallBase` /
`PyPowerwallLocal`, which are outside the slice. -/

/-- A cache entry: payload and fetch timestamp, keyed by API path. -/
structure CacheEntry where
  payload : String
  fetchedAt : Int
deriving Repr, DecidableEq

/-- Modelled from the spec: the client-side response cache behind
`Powerwall.poll` (implemented in `PyPowerwallBase`/`PyPowerwallLocal`, which are
not part of this source slice). Spec §4.1: if `bypassCache` is false and a
non-stale entry (younger than the TTL) exists for `path`, return it immediately
with no backend interaction; on a stale or missing entry delegate to the
backend's fetch, on success store `{path, payload, now}` and return the
payload, on failure propagate without caching. The third component records
whether a network fetch was issued. -/
def cachePoll (fetch : String → Option String) (ttl : Int)
    (cache : List (String × CacheEntry)) (now : Int) (path : String) (bypass : Bool) :
    Option String × List (String × CacheEntry) × Bool :=
  match alookup cache path with
  | some e =>
    if ¬ bypass ∧ now - e.fetchedAt < ttl then
      (some e.payload, cache, false)
    else
      match fetch path with
      | some p => (some p, (path, ⟨p, now⟩) :: cache.filter (fun kv => ¬ kv.1 = path), true)
      | none => (none, cache, true)
  | none =>
    match fetch path with
    | some p => (some p, (path, ⟨p, now⟩) :: cache.filter (fun kv => ¬ kv.1 = path), true)
    | none => (none, cache, true)

/-! ## Proxy server (`proxy/server.py`): statistics state and formatting -/

/-- The module-level `proxystats` dictionary of `proxy/server.py`.
`uri` is the per-path hit-count sub-dictionary; `authmode` is absent (`none`)
until `/stats` or `/help` first sets it, matching the initial dictionary. -/
structure ProxyStats where
  pypowerwall : String
  gets : Nat
  errors : Nat
  timeout : Nat
  uri : List (String × Nat)
  ts : Int
  start : Int
  clear : Int
  uptime : String
  mem : Nat
  site_name : String
  cloudmode : Bool
  siteid : Option String
  counter : Nat
  authmode : Option String
deriving Repr, DecidableEq

/-- The initial `proxystats` dictionary, built at module load time `t`. -/
def initStats (t : Int) : ProxyStats :=
  { pypowerwall := "0.8.0 Proxy t43", gets := 0, errors := 0, timeout := 0,
    uri := [], ts := t, start := t, clear := t, uptime := "", mem := 0,
    site_name := "", cloudmode := false, siteid := none, counter := 0,
    authmode := none }

/-- Round a rational to the nearest integer (`⌊q + 1/2⌋`, written on the
numerator/denominator so it evaluates by kernel reduction). -/
def roundQ (q : ℚ) : Int := Int.fdiv (2 * q.num + q.den) (2 * q.den)

/-- Base-10 digits of `n`, least significant first (`fuel` bounds recursion). -/
def natStrAux : Nat → Nat → List Nat
  | 0, _ => []
  | fuel + 1, n => if n = 0 then [] else n % 10 :: natStrAux fuel (n / 10)

/-- Decimal digit string of a natural number (digit characters only). -/
def natStr (n : Nat) : String :=
  if n = 0 then "0" else String.mk ((natStrAux n n).reverse.map Nat.digitChar)

/-- Two-digit zero-padded rendering of the fractional part `m < 100`. -/
def pad2 (m : Nat) : String :=
  String.mk [Nat.digitChar (m / 10 % 10), Nat.digitChar (m % 10)]

/-- Integer part of the two-decimal rendering: sign, integer digits, dot,
two fractional digits. -/
def fmt2Int (n : Int) : String :=
  (if n < 0 then "-" else "") ++ natStr (n.natAbs / 100) ++ "." ++ pad2 (n.natAbs % 100)

/-- Models Python's `"%0.2f" % x` for the values formatted by the `/csv`
branch: render to exactly two decimal places. The source formats binary
floats (round-half-even on the nearest-double value); here the value is an
exact rational rounded to the nearest hundredth, which agrees except on
ties/double-rounding artifacts that no stated property exercises. -/
def fmt2 (q : ℚ) : String :=
  fmt2Int (roundQ (q * 100))

/-- Python `x or default` for an optional string: `None` and `""` are falsy. -/
def pyOr (m : Option String) (d : String) : String :=
  match m with
  | none => d
  | some s => if s = "" then d else s

/-- The `ALLOWLIST` of raw API paths proxied verbatim (from `proxy/server.py`). -/
def ALLOWLIST : List String :=
  ["/api/status", "/api/site_info/site_name", "/api/meters/site",
   "/api/meters/solar", "/api/sitemaster", "/api/powerwalls",
   "/api/customer/registration", "/api/system_status", "/api/system_status/grid_status",
   "/api/system/update/status", "/api/site_info", "/api/system_status/grid_faults",
   "/api/operation", "/api/site_info/grid_codes", "/api/solars", "/api/solars/brands",
   "/api/customer", "/api/meters", "/api/installer", "/api/networks",
   "/api/system/networks", "/api/meters/readings", "/api/synchrometer/ct_voltage_references",
   "/api/troubleshooting/problems", "/api/auth/toggle/supported", "/api/solar_powerwall"]

/-- Update of the per-path hit dictionary `proxystats['uri'][path]`: bump an
existing key in place, else append it with count 1 (Python dict insertion
order). -/
def bumpUri (uri : List (String × Nat)) (path : String) : List (String × Nat) :=
  if (uri.find? (fun kv => kv.1 = path)).isSome then
    uri.map (fun kv => if kv.1 = path then (kv.1, kv.2 + 1) else kv)
  else
    uri ++ [(path, 1)]

/-! ## Proxy server: the `handler.do_GET` dispatch

The handler consults the shared `Powerwall` facade. Its methods are external
collaborators here (the gateway's own logic — routing, counting, the CSV/
troubleshooting/stats branches — is what is being verified), so they appear as
an oracle record. Body strings that no property inspects (vitals, strings,
temps, alerts, freq, pod, version, help, stats JSON) are oracle fields; the
spec places this field-by-field reshaping out of scope. -/
structure PW where
  /-- Models `pw.poll(path)`: payload (as its serialized form) or `None`. -/
  poll : String → Option String
  /-- Models `pw.level()` (unscaled), used by `/csv`; `None` on a missing payload. -/
  level : Option ℚ
  /-- Models `pw.grid()` instantaneous power, or `None`. -/
  grid : Option ℚ
  /-- Models `pw.solar()` instantaneous power, or `None`. -/
  solar : Option ℚ
  /-- Models `pw.battery()` instantaneous power, or `None`. -/
  battery : Option ℚ
  /-- Models `pw.home()` instantaneous power, or `None`. -/
  home : Option ℚ
  /-- Body of `/api/system_status/soe`: `json.dumps({"percentage": pw.level(scale=True)})`. -/
  soeScaledBody : String
  /-- Body of `/vitals`: `pw.vitals(jsonformat=True) or {}`. -/
  vitalsBody : String
  /-- Body of `/strings`: `pw.strings(jsonformat=True) or {}`. -/
  stringsBody : String
  /-- Body of `/temps`: `pw.temps(jsonformat=True) or {}`. -/
  tempsBody : String
  /-- Body of `/temps/pw`: `json.dumps(pwtemp)`. -/
  tempsPwBody : String
  /-- Body of `/alerts`: `pw.alerts(jsonformat=True) or []`. -/
  alertsBody : String
  /-- Models `pw.alerts()` for `/alerts/pw` (`None` makes the branch answer `None`). -/
  alertsList : Option (List String)
  /-- Body of `/alerts/pw` when alerts exist: `json.dumps(pwalerts)`. -/
  alertsPwBody : String
  /-- Body of `/freq`: `json.dumps(fcv)`. -/
  freqBody : String
  /-- Body of `/pod`: `json.dumps(pod)`. -/
  podBody : String
  /-- Body of `/version`: `json.dumps(v)`. -/
  versionBody : String
  /-- Body of `/help`: the rendered HTML status page over the updated stats. -/
  helpBody : ProxyStats → String
  /-- Models `json.dumps(proxystats)` for the `/stats` and `/stats/clear` responses. -/
  dumps : ProxyStats → String
  /-- Models `pw.site_name()` as stored into the stats site name field. -/
  siteNameStr : String
  /-- Models `pw.cloudmode`. -/
  cloudmode : Bool
  /-- Models `pw.Tesla.siteid` (cloud mode). -/
  teslaSiteid : Option String
  /-- Models `pw.Tesla.counter` (cloud mode). -/
  teslaCounter : Nat
  /-- Models `pw.authmode`. -/
  authmode : String
  /-- Models the resident memory figure stored into the stats. -/
  memRss : Nat
  /-- Models the uptime string computed from the elapsed seconds. -/
  uptimeOf : Int → String

/-- The outcome of one routing branch of `do_GET`, before the counting
section: a message (with content type; `none` models Python `None`), the
early-returning static/proxied else-branch, or an uncaught Python exception. -/
inductive BranchOut where
  | msg (contentType : String) (m : Option String)
  | static
  | crash
deriving Repr, DecidableEq

/-- The visible result of one `do_GET`. -/
inductive GatewayResult where
  | api (contentType : String) (body : String)
  | static
  | crash
deriving Repr, DecidableEq

/-- The stats refresh shared by the `/stats` and `/help` branches: updates
`ts`, `uptime`, `mem`, `site_name`, `cloudmode`, `authmode`, plus `siteid` /
`counter` in cloud mode. -/
def updateStatsInfo (pw : PW) (st : ProxyStats) (now : Int) : ProxyStats :=
  { st with
    ts := now
    uptime := pw.uptimeOf (now - st.start)
    mem := pw.memRss
    site_name := pw.siteNameStr
    cloudmode := pw.cloudmode
    siteid := if pw.cloudmode then pw.teslaSiteid else st.siteid
    counter := if pw.cloudmode then pw.teslaCounter else st.counter
    authmode := some pw.authmode }

/-- The routing `if/elif` chain of `handler.do_GET`, in source order, up to
(but excluding) the final counting section. The `/csv` branch crashes
(`TypeError` in `"%0.2f" % None`) when `pw.level()` is `None`; the four power
values fall back to `0` via Python `or 0`. The else-branch (static asset /
reverse proxy) increments `proxystats['gets']` and returns early. -/
def routeGET (pw : PW) (st : ProxyStats) (now : Int) (path : String) :
    BranchOut × ProxyStats :=
  if path = "/aggregates" ∨ path = "/api/meters/aggregates" then
    (.msg "application/json" (pw.poll "/api/meters/aggregates"), st)
  else if path = "/soe" then
    (.msg "application/json" (pw.poll "/api/system_status/soe"), st)
  else if path = "/api/system_status/soe" then
    (.msg "application/json" (some pw.soeScaledBody), st)
  else if path = "/api/system_status/grid_status" then
    (.msg "application/json" (pw.poll "/api/system_status/grid_status"), st)
  else if path = "/csv" then
    match pw.level with
    | none => (.crash, st)
    | some l =>
      (.msg "text/plain; charset=utf-8"
        (some (fmt2 (pw.grid.getD 0) ++ "," ++ fmt2 (pw.home.getD 0) ++ "," ++
               fmt2 (pw.solar.getD 0) ++ "," ++ fmt2 (pw.battery.getD 0) ++ "," ++
               fmt2 l ++ "\n")), st)
  else if path = "/vitals" then
    (.msg "application/json" (some pw.vitalsBody), st)
  else if path = "/strings" then
    (.msg "application/json" (some pw.stringsBody), st)
  else if path = "/stats" then
    let st2 := updateStatsInfo pw st now
    (.msg "application/json" (some (pw.dumps st2)), st2)
  else if path = "/stats/clear" then
    let st2 := { st with gets := 0, errors := 0, uri := [], clear := now }
    (.msg "application/json" (some (pw.dumps st2)), st2)
  else if path = "/temps" then
    (.msg "application/json" (some pw.tempsBody), st)
  else if path = "/temps/pw" then
    (.msg "application/json" (some pw.tempsPwBody), st)
  else if path = "/alerts" then
    (.msg "application/json" (some pw.alertsBody), st)
  else if path = "/alerts/pw" then
    (.msg "application/json"
      (match pw.alertsList with | none => none | some _ => some pw.alertsPwBody), st)
  else if path = "/freq" then
    (.msg "application/json" (some pw.freqBody), st)
  else if path = "/pod" then
    (.msg "application/json" (some pw.podBody), st)
  else if path = "/version" then
    (.msg "application/json" (some pw.versionBody), st)
  else if path = "/help" then
    let st2 := updateStatsInfo pw st now
    (.msg "text/html" (some (pw.helpBody st2)), st2)
  else if path = "/api/troubleshooting/problems" then
    (.msg "application/json"
      (some (pyOr (pw.poll "/api/troubleshooting/problems") "\x7b\x22problems\x22: []\x7d")), st)
  else if path ∈ ALLOWLIST then
    (.msg "application/json" (pw.poll path), st)
  else
    (.static, { st with gets := st.gets + 1 })

/-- The paths handled by a dedicated `elif` branch of `do_GET` or by the
`ALLOWLIST` proxy branch; every other path falls into the static/proxied
else-branch. -/
def isSpecialPath (path : String) : Bool :=
  path = "/aggregates" || path = "/api/meters/aggregates" || path = "/soe" ||
  path = "/api/system_status/soe" || path = "/api/system_status/grid_status" ||
  path = "/csv" || path = "/vitals" || path = "/strings" || path = "/stats" ||
  path = "/stats/clear" || path = "/temps" || path = "/temps/pw" ||
  path = "/alerts" || path = "/alerts/pw" || path = "/freq" || path = "/pod" ||
  path = "/version" || path = "/help" || path = "/api/troubleshooting/problems" ||
  path ∈ ALLOWLIST

/-- The counting section at the end of `do_GET`: a `None` message counts as a
timeout, the literal `"ERROR!"` as an error, anything else as a successful get
and a per-path hit. -/
def countStep (path : String) (m : Option String) (st : ProxyStats) :
    String × ProxyStats :=
  match m with
  | none => ("TIMEOUT!", { st with timeout := st.timeout + 1 })
  | some s =>
    if s = "ERROR!" then ("ERROR!", { st with errors := st.errors + 1 })
    else (s, { st with gets := st.gets + 1, uri := bumpUri st.uri path })

/-- Models `handler.do_GET`: route the request, then (except for the early-returning
static branch and an uncaught exception) run the counting section and respond. -/
def do_GET (pw : PW) (st : ProxyStats) (now : Int) (path : String) :
    GatewayResult × ProxyStats :=
  match routeGET pw st now path with
  | (.msg ct m, st1) =>
    let cs := countStep path m st1
    (.api ct cs.1, cs.2)
  | (.static, st1) => (.static, st1)
  | (.crash, st1) => (.crash, st1)

/-- A concrete facade oracle used to instantiate witnesses and
counterexamples. -/
def pwTest : PW :=
  { poll := fun _ => some "PAYLOAD"
    level := some 42
    grid := none
    solar := none
    battery := none
    home := none
    soeScaledBody := "SOEBODY"
    vitalsBody := "VITALSBODY"
    stringsBody := "STRINGSBODY"
    tempsBody := "TEMPSBODY"
    tempsPwBody := "TEMPSPWBODY"
    alertsBody := "ALERTSBODY"
    alertsList := some []
    alertsPwBody := "ALERTSPWBODY"
    freqBody := "FREQBODY"
    podBody := "PODBODY"
    versionBody := "VERSIONBODY"
    helpBody := fun _ => "HELPBODY"
    dumps := fun _ => "STATSBODY"
    siteNameStr := "SITE"
    cloudmode := false
    teslaSiteid := none
    teslaCounter := 0
    authmode := "cookie"
    memRss := 0
    uptimeOf := fun _ => "0:00:00" }

/-- A facade oracle whose polls all fail (device unreachable). -/
def pwEmpty : PW := { pwTest with poll := fun _ => none }

/-! ## Theorems -/

/-- Cache hit: with the bypass flag off and a fresh entry, `cachePoll` serves
the cached payload, touches nothing, and issues no fetch. -/
theorem cachePoll_hit (fetch : String → Option String) (ttl : Int)
    (cache : List (String × CacheEntry)) (now : Int) (path : String) (e : CacheEntry)
    (h1 : alookup cache path = some e) (h2 : now - e.fetchedAt < ttl) :
    cachePoll fetch ttl cache now path false = (some e.payload, cache, false) := by
  simp [cachePoll, h1, h2]

/-- Cache miss with a successful fetch stores the payload at `now`. -/
theorem cachePoll_miss (fetch : String → Option String) (ttl : Int)
    (cache : List (String × CacheEntry)) (now : Int) (path : String) (p : String)
    (h1 : alookup cache path = none) (h2 : fetch path = some p) :
    cachePoll fetch ttl cache now path false
      = (some p, (path, ⟨p, now⟩) :: cache.filter (fun kv => ¬ kv.1 = path), true) := by
  simp [cachePoll, h1, h2]

/-- C2: for every raw battery percentage `r`, `level(scale=True)` and
`get_reserve(scale=True)` return exactly `(r / 0.95) - (5 / 0.95)`; raw `100`
scales to `100`, raw `50` to `900/19 = 47.368…`, raw `5` to `0`; with
`scale=False` the raw value is returned unchanged. -/
theorem claim_C2_scaling :
    (∀ (p : List (String × ℚ)) (r : ℚ), alookup p "percentage" = some r →
      Powerwall.level (some p) true = some (r / (0.95 : ℚ) - (5 : ℚ) / (0.95 : ℚ)) ∧
      Powerwall.level (some p) false = some r) ∧
    (∀ (p : List (String × ℚ)) (r : ℚ), alookup p "backup_reserve_percent" = some r →
      Powerwall.get_reserve (some p) true = some (r / (0.95 : ℚ) - (5 : ℚ) / (0.95 : ℚ)) ∧
      Powerwall.get_reserve (some p) false = some r) ∧
    Powerwall.level (some [("percentage", 100)]) true = some 100 ∧
    Powerwall.level (some [("percentage", 50)]) true = some (900 / 19) ∧
    ((47368 / 1000 : ℚ) < 900 / 19 ∧ (900 / 19 : ℚ) < 47369 / 1000) ∧
    Powerwall.level (some [("percentage", 5)]) true = some 0 := by
  refine ⟨?_, ?_, ?_, ?_, ?_, ?_⟩
  · intro p r h
    constructor <;> simp [Powerwall.level, h, appScale]
  · intro p r h
    constructor <;> simp [Powerwall.get_reserve, h, appScale]
  · simp [Powerwall.level, alookup, appScale]
    norm_num
  · simp [Powerwall.level, alookup, appScale]
    norm_num
  · norm_num
  · simp [Powerwall.level, alookup, appScale]

/-- Witness for C2 at concrete payloads. -/
theorem claim_C2_scaling_witness :
    Powerwall.level (some [("percentage", 80)]) true
      = some ((80 : ℚ) / (0.95 : ℚ) - (5 : ℚ) / (0.95 : ℚ)) ∧
    Powerwall.get_reserve (some [("backup_reserve_percent", 20)]) true
      = some ((20 : ℚ) / (0.95 : ℚ) - (5 : ℚ) / (0.95 : ℚ)) :=
  ⟨(claim_C2_scaling.1 [("percentage", 80)] 80 rfl).1,
   (claim_C2_scaling.2.1 [("backup_reserve_percent", 20)] 20 rfl).1⟩

/-- C3: `grid_status` maps `SystemGridConnected` to `UP`/`1`,
`SystemIslandedActive` to `DOWN`/`0`, `SystemTransitionToGrid` to
`SYNCING`/`-1` (for `type="string"`/`"numeric"`), and any raw state string
outside the code's fixed enumeration (`gridmap`) yields `None` without an
exception. -/
theorem claim_C3_grid_status_map :
    Powerwall.grid_status (some [("grid_status", "SystemGridConnected")]) "string"
      = .ok (some (.s "UP")) ∧
    Powerwall.grid_status (some [("grid_status", "SystemGridConnected")]) "numeric"
      = .ok (some (.n 1)) ∧
    Powerwall.grid_status (some [("grid_status", "SystemIslandedActive")]) "string"
      = .ok (some (.s "DOWN")) ∧
    Powerwall.grid_status (some [("grid_status", "SystemIslandedActive")]) "numeric"
      = .ok (some (.n 0)) ∧
    Powerwall.grid_status (some [("grid_status", "SystemTransitionToGrid")]) "string"
      = .ok (some (.s "SYNCING")) ∧
    Powerwall.grid_status (some [("grid_status", "SystemTransitionToGrid")]) "numeric"
      = .ok (some (.n (-1))) ∧
    (∀ s : String, gridmap s = none →
      Powerwall.grid_status (some [("grid_status", s)]) "string" = .ok none ∧
      Powerwall.grid_status (some [("grid_status", s)]) "numeric" = .ok none) := by
  refine ⟨rfl, rfl, rfl, rfl, rfl, rfl, ?_⟩
  intro s h
  have e1 : Powerwall.grid_status (some [("grid_status", s)]) "string"
      = (match gridmap s with
         | none => Except.ok none
         | some sv => Except.ok (some (GSVal.s sv.1))) := rfl
  have e2 : Powerwall.grid_status (some [("grid_status", s)]) "numeric"
      = (match gridmap s with
         | none => Except.ok none
         | some sv => Except.ok (some (GSVal.n sv.2))) := rfl
  rw [h] at e1 e2
  exact ⟨e1, e2⟩

/-- Witness for C3 at a state string outside the enumeration. -/
theorem claim_C3_witness :
    Powerwall.grid_status (some [("grid_status", "SystemFoo")]) "string" = .ok none ∧
    Powerwall.grid_status (some [("grid_status", "SystemFoo")]) "numeric" = .ok none :=
  claim_C3_grid_status_map.2.2.2.2.2.2 "SystemFoo" rfl

/-- C6 counterexample: `grid_status` does NOT tolerate a null poll payload —
`payload['grid_status']` on `None` raises (TypeError), contradicting the claim
that every derived accessor returns null/empty rather than raising. -/
theorem claim_C6_counterexample :
    Powerwall.grid_status none "string"
      = .error "TypeError: NoneType object is not subscriptable" := rfl

/-- C6 (amended): `level`, `get_reserve`, `site_name`, `temps` tolerate a
null/missing poll payload and missing fields by returning null/empty, but
`grid_status` raises on a null payload or a payload without the
`grid_status` key (it returns null only for unrecognized status strings). -/
theorem claim_C6_null_tolerance :
    (∀ b : Bool, Powerwall.level none b = none) ∧
    (∀ b : Bool, Powerwall.get_reserve none b = none) ∧
    Powerwall.site_name none = none ∧
    Powerwall.site_name (some []) = none ∧
    Powerwall.temps none = [] ∧
    (∀ (p : List (String × ℚ)), alookup p "percentage" = none →
      ∀ b : Bool, Powerwall.level (some p) b = none) ∧
    Powerwall.grid_status none "string"
      = .error "TypeError: NoneType object is not subscriptable" ∧
    Powerwall.grid_status (some []) "string" = .error "KeyError: grid_status" := by
  refine ⟨fun b => rfl, fun b => rfl, rfl, rfl, rfl, ?_, rfl, rfl⟩
  intro p h b
  simp [Powerwall.level, h]

/-- Witness for C6 (amended) at a payload without the `percentage` key. -/
theorem claim_C6_witness :
    Powerwall.level (some []) true = none :=
  claim_C6_null_tolerance.2.2.2.2.2.1 [] rfl true

/-- C7: backend selection at construction: cloud mode iff `cloudmode` is
true or `host` is empty, local mode otherwise (a one-time decision; the source
never reassigns `self.client`/`self.cloudmode` after `__init__`). -/
theorem claim_C7_backend_selection : ∀ (cloudmode : Bool) (host : String),
    (Powerwall.initBackend cloudmode host = (true, BackendKind.cloud)
      ↔ (cloudmode = true ∨ host = "")) ∧
    (Powerwall.initBackend cloudmode host = (false, BackendKind.local)
      ↔ (cloudmode = false ∧ ¬ host = "")) := by
  intro cm host
  by_cases h : cm = true <;> by_cases h2 : host = "" <;>
    simp [Powerwall.initBackend, h, h2]

/-- C10: `grid(verbose)` returns exactly `site(verbose)` and `home(verbose)`
exactly `load(verbose)`; both aliases are pure delegations to
`client.fetchpower` with no extra computation (`α` ranges over any result
shape, including result–state pairs). -/
theorem claim_C10_aliases : ∀ (α : Type) (fetchpower : String → Bool → α) (verbose : Bool),
    Powerwall.grid fetchpower verbose = Powerwall.site fetchpower verbose ∧
    Powerwall.home fetchpower verbose = Powerwall.load fetchpower verbose ∧
    Powerwall.grid fetchpower verbose = fetchpower "site" verbose ∧
    Powerwall.home fetchpower verbose = fetchpower "load" verbose :=
  fun _ _ _ => ⟨rfl, rfl, rfl, rfl⟩

/-- C1: with the bypass flag off, a cache entry younger than the TTL is
returned as-is with no fetch; and two `poll(P)` calls within one TTL window
(starting from no entry for `P`) issue exactly one fetch between them and
return byte-identical payloads. -/
theorem claim_C1_cache_ttl :
    (∀ (fetch : String → Option String) (ttl : Int) (cache : List (String × CacheEntry))
       (now : Int) (path : String) (e : CacheEntry),
      alookup cache path = some e → now - e.fetchedAt < ttl →
      cachePoll fetch ttl cache now path false = (some e.payload, cache, false)) ∧
    (∀ (fetch : String → Option String) (ttl : Int) (cache : List (String × CacheEntry))
       (t0 t1 : Int) (path : String) (p : String),
      alookup cache path = none → fetch path = some p → 0 ≤ t1 - t0 → t1 - t0 < ttl →
      cachePoll fetch ttl cache t0 path false
        = (some p, (path, ⟨p, t0⟩) :: cache.filter (fun kv => ¬ kv.1 = path), true) ∧
      cachePoll fetch ttl ((path, ⟨p, t0⟩) :: cache.filter (fun kv => ¬ kv.1 = path)) t1 path false
        = (some p, (path, ⟨p, t0⟩) :: cache.filter (fun kv => ¬ kv.1 = path), false)) := by
  refine ⟨cachePoll_hit, ?_⟩
  intro fetch ttl cache t0 t1 path p h1 h2 _ h4
  refine ⟨cachePoll_miss fetch ttl cache t0 path p h1 h2, ?_⟩
  exact cachePoll_hit fetch ttl _ t1 path ⟨p, t0⟩ (by simp [alookup]) h4

/-- Witness for C1: one fetch then a fresh hit, byte-identical payloads. -/
theorem claim_C1_cache_ttl_witness :
    cachePoll (fun _ => some "A") 5 [] 0 "/api/status" false
      = (some "A", [("/api/status", ⟨"A", 0⟩)], true) ∧
    cachePoll (fun _ => some "A") 5 [("/api/status", ⟨"A", 0⟩)] 3 "/api/status" false
      = (some "A", [("/api/status", ⟨"A", 0⟩)], false) := by
  have h := claim_C1_cache_ttl.2 (fun _ => some "A") 5 [] 0 3 "/api/status" "A"
    rfl rfl (by decide) (by decide)
  simpa using h

/-- C5 counterexample: the `/stats/clear` branch does not reset the `timeout`
counter (the claim says all serving counters, `timeout` included, reset to
zero). -/
theorem claim_C5_counterexample :
    (routeGET pwTest { initStats 0 with timeout := 7 } 5 "/stats/clear").2.timeout = 7 ∧
    (7 : Nat) ≠ 0 :=
  ⟨rfl, by decide⟩

/-- C5 (amended): the `/stats/clear` branch resets `gets`, `errors` and the
per-path hit counts to zero and updates the `clear` timestamp to now; the
`timeout` counter, the `start` timestamp and every other stats field are
unchanged. -/
theorem claim_C5_stats_clear_frame : ∀ (pw : PW) (st : ProxyStats) (now : Int),
    (routeGET pw st now "/stats/clear").2.gets = 0 ∧
    (routeGET pw st now "/stats/clear").2.errors = 0 ∧
    (routeGET pw st now "/stats/clear").2.uri = [] ∧
    (routeGET pw st now "/stats/clear").2.clear = now ∧
    (routeGET pw st now "/stats/clear").2.timeout = st.timeout ∧
    (routeGET pw st now "/stats/clear").2.start = st.start ∧
    (routeGET pw st now "/stats/clear").2.ts = st.ts ∧
    (routeGET pw st now "/stats/clear").2.uptime = st.uptime ∧
    (routeGET pw st now "/stats/clear").2.mem = st.mem ∧
    (routeGET pw st now "/stats/clear").2.site_name = st.site_name ∧
    (routeGET pw st now "/stats/clear").2.cloudmode = st.cloudmode ∧
    (routeGET pw st now "/stats/clear").2.siteid = st.siteid ∧
    (routeGET pw st now "/stats/clear").2.counter = st.counter ∧
    (routeGET pw st now "/stats/clear").2.authmode = st.authmode ∧
    (routeGET pw st now "/stats/clear").2.pypowerwall = st.pypowerwall :=
  fun _ _ _ =>
    ⟨rfl, rfl, rfl, rfl, rfl, rfl, rfl, rfl, rfl, rfl, rfl, rfl, rfl, rfl, rfl⟩

/-- C8: when the upstream poll for `/api/troubleshooting/problems` fails
(`None`) or is empty, the gateway answers with the default
`{"problems": []}` body and counts the request as a successful get. -/
theorem claim_C8_problems_default : ∀ (pw : PW) (st : ProxyStats) (now : Int),
    (pw.poll "/api/troubleshooting/problems" = none ∨
     pw.poll "/api/troubleshooting/problems" = some "") →
    do_GET pw st now "/api/troubleshooting/problems" =
      (.api "application/json" "\x7b\x22problems\x22: []\x7d",
       { st with
         gets := st.gets + 1
         uri := bumpUri st.uri "/api/troubleshooting/problems" }) := by
  intro pw st now h
  have hr : routeGET pw st now "/api/troubleshooting/problems"
      = (.msg "application/json" (some "\x7b\x22problems\x22: []\x7d"), st) := by
    rcases h with h | h <;> simp [routeGET, pyOr, h]
  simp [do_GET, hr, countStep]

/-- Witness for C8 with an all-failing backend. -/
theorem claim_C8_problems_default_witness :
    do_GET pwEmpty (initStats 0) 0 "/api/troubleshooting/problems" =
      (.api "application/json" "\x7b\x22problems\x22: []\x7d",
       { initStats 0 with
         gets := 1
         uri := [("/api/troubleshooting/problems", 1)] }) :=
  claim_C8_problems_default pwEmpty (initStats 0) 0 (Or.inl rfl)

theorem alookup_nil {α : Type} (p : String) : alookup ([] : List (String × α)) p = none := rfl

theorem alookup_cons {α : Type} (kv : String × α) (l : List (String × α)) (p : String) :
    alookup (kv :: l) p = if kv.1 = p then some kv.2 else alookup l p := by
  by_cases h : kv.1 = p
  · simp [alookup, List.find?_cons_of_pos, h]
  · simp [alookup, List.find?_cons_of_neg, h]

theorem alookup_append_right {α : Type} (l1 l2 : List (String × α)) (p : String)
    (h : alookup l1 p = none) : alookup (l1 ++ l2) p = alookup l2 p := by
  induction l1 with
  | nil => simp
  | cons kv rest ih =>
    rw [alookup_cons] at h
    by_cases hk : kv.1 = p
    · rw [if_pos hk] at h
      exact absurd h (by simp)
    · rw [if_neg hk] at h
      rw [List.cons_append, alookup_cons, if_neg hk]
      exact ih h

theorem alookup_map_bump (p : String) : ∀ (uri : List (String × Nat)) (n : Nat),
    alookup uri p = some n →
    alookup (uri.map (fun kv => if kv.1 = p then (kv.1, kv.2 + 1) else kv)) p
      = some (n + 1) := by
  intro uri
  induction uri with
  | nil => intro n h; simp [alookup] at h
  | cons kv rest ih =>
    intro n h
    rw [alookup_cons] at h
    by_cases hk : kv.1 = p
    · rw [if_pos hk] at h
      obtain rfl : kv.2 = n := by injection h
      simp [List.map_cons, alookup_cons, hk]
    · rw [if_neg hk] at h
      simp [List.map_cons, alookup_cons, hk]
      exact ih n h

/-- Effect of a per-path hit bump on the hit dictionary: the path's count
becomes its previous count (0 when absent) plus one. -/
theorem alookup_bumpUri (uri : List (String × Nat)) (p : String) :
    alookup (bumpUri uri p) p = some ((alookup uri p).getD 0 + 1) := by
  unfold bumpUri
  cases hf : uri.find? (fun kv => kv.1 = p) with
  | none =>
    have hnone : alookup uri p = none := by simp [alookup, hf]
    simp [hf, hnone, alookup_append_right uri [(p, 1)] p hnone, alookup_cons]
  | some kv0 =>
    have hv : alookup uri p = some kv0.2 := by simp [alookup, hf]
    simp [hf, hv]
    exact alookup_map_bump p uri kv0.2 hv

/-- C4 counterexample: a request served by the static/proxied else-branch
(here `/index.html`) succeeds and increments `gets`, but its per-path hit
counter is never created — contradicting the claim that the per-path counter
is incremented on success regardless of routing branch. -/
theorem claim_C4_counterexample :
    (do_GET pwTest (initStats 0) 0 "/index.html").1 = GatewayResult.static ∧
    (do_GET pwTest (initStats 0) 0 "/index.html").2.gets = 1 ∧
    alookup (do_GET pwTest (initStats 0) 0 "/index.html").2.uri "/index.html" = none :=
  ⟨rfl, rfl, rfl⟩

/-- C4 (amended): the counting section increments exactly one of
`gets`/`errors`/`timeout` (leaving all other stats fields unchanged), and on
a successful message also bumps the per-path hit counter by one; the
static/proxied else-branch instead increments only `gets`, leaving the
per-path counters untouched. -/
theorem claim_C4_counting :
    (∀ (path : String) (st : ProxyStats),
      (countStep path none st).2 = { st with timeout := st.timeout + 1 }) ∧
    (∀ (path : String) (st : ProxyStats),
      (countStep path (some "ERROR!") st).2 = { st with errors := st.errors + 1 }) ∧
    (∀ (path : String) (st : ProxyStats) (s : String), ¬ s = "ERROR!" →
      (countStep path (some s) st).2
        = { st with gets := st.gets + 1, uri := bumpUri st.uri path } ∧
      alookup (countStep path (some s) st).2.uri path
        = some ((alookup st.uri path).getD 0 + 1)) ∧
    (∀ (pw : PW) (st : ProxyStats) (now : Int) (path : String),
      isSpecialPath path = false →
      routeGET pw st now path = (BranchOut.static, { st with gets := st.gets + 1 })) := by
  refine ⟨fun _ _ => rfl, fun _ _ => rfl, ?_, ?_⟩
  · intro path st s hs
    refine ⟨by simp [countStep, hs], ?_⟩
    simp [countStep, hs, alookup_bumpUri]
  · intro pw st now path h
    simp only [isSpecialPath, Bool.or_eq_false_iff, decide_eq_false_iff_not] at h
    obtain ⟨⟨⟨⟨⟨⟨⟨⟨⟨⟨⟨⟨⟨⟨⟨⟨⟨⟨⟨h1, h2⟩, h3⟩, h4⟩, h5⟩, h6⟩, h7⟩, h8⟩, h9⟩, h10⟩,
      h11⟩, h12⟩, h13⟩, h14⟩, h15⟩, h16⟩, h17⟩, h18⟩, h19⟩, h20⟩ := h
    simp [routeGET, h1, h2, h3, h4, h5, h6, h7, h8, h9, h10, h11, h12, h13,
      h14, h15, h16, h17, h18, h19, h20]

/-- Witness for C4 (amended): a successful API request creates the path's
hit counter at 1, and a static request only bumps `gets`. -/
theorem claim_C4_counting_witness :
    (countStep "/soe" (some "X") (initStats 0)).2
      = { initStats 0 with gets := 1, uri := [("/soe", 1)] } ∧
    alookup (countStep "/soe" (some "X") (initStats 0)).2.uri "/soe" = some 1 ∧
    routeGET pwTest (initStats 0) 0 "/index.html"
      = (BranchOut.static, { initStats 0 with gets := 1 }) := by
  have h3 := claim_C4_counting.2.2.1 "/soe" (initStats 0) "X" (by decide)
  have h4 := claim_C4_counting.2.2.2 pwTest (initStats 0) 0 "/index.html" rfl
  exact ⟨h3.1, h3.2, h4⟩

theorem natStrAux_lt_ten : ∀ (fuel n d : Nat), d ∈ natStrAux fuel n → d < 10 := by
  intro fuel
  induction fuel with
  | zero => intro n d h; simp [natStrAux] at h
  | succ f ih =>
    intro n d h
    unfold natStrAux at h
    by_cases hn : n = 0
    · simp [hn] at h
    · rw [if_neg hn] at h
      rcases List.mem_cons.mp h with h1 | h2
      · subst h1; exact Nat.mod_lt _ (by norm_num)
      · exact ih _ _ h2

theorem digitChar_ne_comma {d : Nat} (h : d < 10) : Nat.digitChar d ≠ ',' := by
  interval_cases d <;> decide

theorem count_comma_natStr (n : Nat) : (natStr n).data.count ',' = 0 := by
  rw [List.count_eq_zero]
  unfold natStr
  split
  · decide
  · intro hmem
    replace hmem : ',' ∈ (natStrAux n n).reverse.map Nat.digitChar := hmem
    obtain ⟨d, hd, hdc⟩ := List.mem_map.mp hmem
    exact digitChar_ne_comma (natStrAux_lt_ten _ _ _ (List.mem_reverse.mp hd)) hdc

theorem count_comma_pad2 (m : Nat) : (pad2 m).data.count ',' = 0 := by
  rw [List.count_eq_zero]
  intro hmem
  have h2 : ',' = Nat.digitChar (m / 10 % 10) ∨ ',' = Nat.digitChar (m % 10) := by
    simpa [pad2] using hmem
  rcases h2 with h | h
  · exact digitChar_ne_comma (Nat.mod_lt _ (by norm_num)) h.symm
  · exact digitChar_ne_comma (Nat.mod_lt _ (by norm_num)) h.symm

/-- A two-decimal rendering never contains a comma. -/
theorem count_comma_fmt2 (q : ℚ) : (fmt2 q).data.count ',' = 0 := by
  unfold fmt2 fmt2Int
  rw [String.data_append, String.data_append, String.data_append,
      List.count_append, List.count_append, List.count_append]
  have hs : ((if roundQ (q * 100) < 0 then "-" else "") : String).data.count ',' = 0 := by
    split <;> decide
  rw [count_comma_natStr, count_comma_pad2, hs]
  decide

/-- A two-decimal rendering always ends in a dot followed by exactly two
digit characters. -/
theorem fmt2_two_decimals (q : ℚ) :
    ∃ ip fr : String, fmt2 q = ip ++ "." ++ fr ∧ fr.length = 2 :=
  ⟨(if roundQ (q * 100) < 0 then "-" else "") ++ natStr ((roundQ (q * 100)).natAbs / 100),
   pad2 ((roundQ (q * 100)).natAbs % 100), rfl, rfl⟩

/-- Evaluation of the two-decimal rendering on whole numbers. -/
theorem fmt2_natCast (n : Nat) : fmt2 (n : ℚ) = fmt2Int (100 * (n : Int)) := by
  unfold fmt2
  congr 1
  unfold roundQ
  rw [show ((n : ℚ) * 100) = ((100 * n : ℕ) : ℚ) by push_cast; ring]
  rw [Rat.num_natCast, Rat.den_natCast]
  rw [Int.fdiv_eq_ediv _ (by norm_num)]
  push_cast
  omega

/-- C9: the `/csv` response is plain text, with the five values
grid, home, solar, battery, level in that order, comma separated (no other
comma appears, so there are exactly five comma-separated fields), each with
exactly two decimal places, newline terminated; a missing grid/home/solar/
battery power falls back to `0`, rendered `0.00`. -/
theorem claim_C9_csv : ∀ (pw : PW) (st : ProxyStats) (now : Int) (l : ℚ),
    pw.level = some l →
    do_GET pw st now "/csv" =
      (.api "text/plain; charset=utf-8"
        (fmt2 (pw.grid.getD 0) ++ "," ++ fmt2 (pw.home.getD 0) ++ "," ++
         fmt2 (pw.solar.getD 0) ++ "," ++ fmt2 (pw.battery.getD 0) ++ "," ++
         fmt2 l ++ "\n"),
       { st with gets := st.gets + 1, uri := bumpUri st.uri "/csv" }) ∧
    (fmt2 (pw.grid.getD 0) ++ "," ++ fmt2 (pw.home.getD 0) ++ "," ++
     fmt2 (pw.solar.getD 0) ++ "," ++ fmt2 (pw.battery.getD 0) ++ "," ++
     fmt2 l ++ "\n").data.count ',' = 4 ∧
    (∀ q : ℚ, (fmt2 q).data.count ',' = 0 ∧
      ∃ ip fr : String, fmt2 q = ip ++ "." ++ fr ∧ fr.length = 2) ∧
    Option.getD (none : Option ℚ) (0 : ℚ) = 0 ∧ fmt2 0 = "0.00" := by
  intro pw st now l h
  have hc : (fmt2 (pw.grid.getD 0) ++ "," ++ fmt2 (pw.home.getD 0) ++ "," ++
      fmt2 (pw.solar.getD 0) ++ "," ++ fmt2 (pw.battery.getD 0) ++ "," ++
      fmt2 l ++ "\n").data.count ',' = 4 := by
    simp [String.data_append, List.count_append, count_comma_fmt2]
  have hne : ¬ (fmt2 (pw.grid.getD 0) ++ "," ++ fmt2 (pw.home.getD 0) ++ "," ++
      fmt2 (pw.solar.getD 0) ++ "," ++ fmt2 (pw.battery.getD 0) ++ "," ++
      fmt2 l ++ "\n") = "ERROR!" := by
    intro he
    rw [he] at hc
    exact absurd hc (by decide)
  have hz : fmt2 (0 : ℚ) = "0.00" := by
    rw [show (0 : ℚ) = ((0 : ℕ) : ℚ) by norm_num, fmt2_natCast]
    decide
  have hr : routeGET pw st now "/csv"
      = (.msg "text/plain; charset=utf-8"
          (some (fmt2 (pw.grid.getD 0) ++ "," ++ fmt2 (pw.home.getD 0) ++ "," ++
                 fmt2 (pw.solar.getD 0) ++ "," ++ fmt2 (pw.battery.getD 0) ++ "," ++
                 fmt2 l ++ "\n")), st) := by
    simp [routeGET, h]
  refine ⟨?_, hc, fun q => ⟨count_comma_fmt2 q, fmt2_two_decimals q⟩, rfl, hz⟩
  simp [do_GET, hr, countStep, hne]

/-- Witness for C9: all power values missing (`0.00` defaults), level 42. -/
theorem claim_C9_csv_witness :
    do_GET pwTest (initStats 0) 0 "/csv" =
      (.api "text/plain; charset=utf-8" "0.00,0.00,0.00,0.00,42.00\n",
       { initStats 0 with gets := 1, uri := [("/csv", 1)] }) := by
  have h : do_GET pwTest (initStats 0) 0 "/csv" =
      (.api "text/plain; charset=utf-8"
        (fmt2 (0 : ℚ) ++ "," ++ fmt2 (0 : ℚ) ++ "," ++ fmt2 (0 : ℚ) ++ "," ++
         fmt2 (0 : ℚ) ++ "," ++ fmt2 (42 : ℚ) ++ "\n"),
       { initStats 0 with gets := 1, uri := [("/csv", 1)] }) :=
    (claim_C9_csv pwTest (initStats 0) 0 42 rfl).1
  have hz : fmt2 (0 : ℚ) = "0.00" := by
    rw [show (0 : ℚ) = ((0 : ℕ) : ℚ) by norm_num, fmt2_natCast]
    decide
  have h42 : fmt2 (42 : ℚ) = "42.00" := by
    rw [show (42 : ℚ) = ((42 : ℕ) : ℚ) by norm_num, fmt2_natCast]
    decide
  rw [h, hz, h42]
  rfl

end PyPW
